import Mathlib

/-!
Shallow embedding of two components of the BLPtensorforce repository:

* `src/tensorforce/rl_agents/pg_agent.py` — the policy-gradient agent's
  trajectory/batch accumulator (`PGAgent.__init__`, `add_observation`,
  `get_path`).
* `src/tensorforce/core/distributions/gaussian.py` — the Gaussian
  distribution module (`Gaussian.__init__` shape validation, `parametrize`,
  `sample`, `log_probability`, `kl_divergence`, `states_value`,
  `action_value`).

Tensors are modelled componentwise: every distribution operation in the
source is elementwise over tensors of the action shape, so each scalar
component obeys exactly the scalar recurrence embedded here.  Floating-point
numbers are modelled as real numbers.  Per-step payloads carried by the
agent (states, actions, rewards, cached means and log-stddevs) are opaque
to the accumulator logic and are modelled as integers; numpy arrays holding
one value per step are modelled as Lean lists, whose length is the array's
leading dimension.
-/

namespace PGAgentModel

/-- One per-step payload for `add_observation(state, action, reward, terminal)`.
The `action` argument is recorded even though the source body reads the
cached `self.last_action` instead of it. -/
structure Obs where
  state : Int
  action : Int
  reward : Int
  terminal : Bool
deriving DecidableEq, Repr

/-- The in-progress episode buffer `self.current_episode`: in the source a
`defaultdict(list)` with the five per-step lists plus the `terminated`
entry.  `terminated` is only ever read after one of the two assignments
(lines 97 and 106) has set it, so it is modelled as a `Bool` that is
`false` in a fresh buffer. -/
structure Episode where
  states : List Int
  actions : List Int
  rewards : List Int
  action_means : List Int
  action_log_stds : List Int
  terminated : Bool
deriving DecidableEq, Repr

/-- A fresh `defaultdict(list)` episode buffer. -/
def emptyEpisode : Episode :=
  { states := [], actions := [], rewards := [], action_means := [],
    action_log_stds := [], terminated := false }

/-- A finalized path record as produced by `PGAgent.get_path`.  Each numpy
array is modelled by the list of its per-step entries (its leading
dimension is the list length). -/
structure Path where
  states : List Int
  actions : List Int
  terminated : Bool
  action_means : List Int
  action_log_stds : List Int
  rewards : List Int
deriving DecidableEq, Repr

/-- Embedding of `PGAgent.get_path`: stacks / concatenates the listwise episode buffer
into per-field arrays and carries the `terminated` flag through. -/
def get_path (e : Episode) : Path :=
  { states := e.states
    actions := e.actions
    terminated := e.terminated
    action_means := e.action_means
    action_log_stds := e.action_log_stds
    rewards := e.rewards }

/-- The mutable state of a `PGAgent`, together with a ghost log `updates`
of the batches handed to `self.updater.update` (most recent last).  The
source initializes the three caches to `None`; since `add_observation`
only copies them, they are modelled as arbitrary integers fixed by
`freshAgent`'s caller. -/
structure AgentState where
  current_batch : List Path
  current_episode : Episode
  batch_steps : Nat
  batch_size : Nat
  last_action : Int
  last_action_means : Int
  last_action_log_stds : Int
  updates : List (List Path)
deriving DecidableEq, Repr

/-- Embedding of `PGAgent.__init__`: empty batch, fresh episode buffer, step counter 0,
no update calls yet. -/
def freshAgent (batch_size : Nat) (la lam lal : Int) : AgentState :=
  { current_batch := [], current_episode := emptyEpisode, batch_steps := 0,
    batch_size := batch_size, last_action := la, last_action_means := lam,
    last_action_log_stds := lal, updates := [] }

/-- Embedding of `PGAgent.add_observation(state, action, reward, terminal)` (lines
88–112): increment the step counter and append to the episode buffer;
if `terminal`, finalize the episode with `terminated=True`, append the
path to the batch and reset the episode buffer; then, if the step counter
equals `batch_size`, force-finalize the (non-terminal) episode with
`terminated=False`, call `update` with (a deep copy of) the batch, and
reset episode buffer, batch buffer and step counter. -/
def add_observation (st : AgentState) (state action reward : Int)
    (terminal : Bool) : AgentState :=
  let st1 : AgentState :=
    { st with
      batch_steps := st.batch_steps + 1
      current_episode :=
        { st.current_episode with
          states := st.current_episode.states ++ [state]
          actions := st.current_episode.actions ++ [st.last_action]
          rewards := st.current_episode.rewards ++ [reward]
          action_means := st.current_episode.action_means ++ [st.last_action_means]
          action_log_stds :=
            st.current_episode.action_log_stds ++ [st.last_action_log_stds] } }
  let st2 : AgentState :=
    if terminal then
      { st1 with
        current_batch :=
          st1.current_batch ++ [get_path { st1.current_episode with terminated := true }]
        current_episode := emptyEpisode }
    else st1
  if st2.batch_steps = st2.batch_size then
    let st3 : AgentState :=
      if terminal then st2
      else
        { st2 with
          current_batch :=
            st2.current_batch ++ [get_path { st2.current_episode with terminated := false }]
          current_episode := emptyEpisode }
    { st3 with
      updates := st3.updates ++ [st3.current_batch]
      current_episode := emptyEpisode
      current_batch := []
      batch_steps := 0 }
  else st2

/-- Folding `add_observation` over a list of per-step observations. -/
def run_observations (st : AgentState) (obs : List Obs) : AgentState :=
  obs.foldl (fun s o => add_observation s o.state o.action o.reward o.terminal) st

/-- C1: when `terminal` is true and the incremented step counter equals
`batch_size`, the episode is finalized into exactly one path (the guard
`if not terminal` prevents a second finalize), the update routine receives
the batch extended by exactly that path, and afterwards the episode
buffer, batch buffer and step counter are all reset. -/
theorem add_observation_terminal_at_batch_size (st : AgentState) (s a r : Int)
    (h : st.batch_steps + 1 = st.batch_size) :
    (add_observation st s a r true).updates =
        st.updates ++ [st.current_batch ++
          [{ states := st.current_episode.states ++ [s]
             actions := st.current_episode.actions ++ [st.last_action]
             terminated := true
             action_means := st.current_episode.action_means ++ [st.last_action_means]
             action_log_stds :=
               st.current_episode.action_log_stds ++ [st.last_action_log_stds]
             rewards := st.current_episode.rewards ++ [r] }]] ∧
      (add_observation st s a r true).current_episode = emptyEpisode ∧
      (add_observation st s a r true).current_batch = [] ∧
      (add_observation st s a r true).batch_steps = 0 := by
  refine ⟨?_, ?_, ?_, ?_⟩ <;> simp [add_observation, get_path, h]

/-- Witness for `add_observation_terminal_at_batch_size`: a concrete agent
with `batch_size = 3`, two prior steps and a one-step-old episode buffer,
fed a terminal step. -/
theorem add_observation_terminal_at_batch_size_witness :
    (add_observation ⟨[], ⟨[10], [7], [5], [8], [9], false⟩, 2, 3, 7, 8, 9, []⟩
          1 2 3 true).updates
        = [[⟨[10, 1], [7, 7], true, [8, 8], [9, 9], [5, 3]⟩]] ∧
      (add_observation ⟨[], ⟨[10], [7], [5], [8], [9], false⟩, 2, 3, 7, 8, 9, []⟩
          1 2 3 true).current_episode = emptyEpisode ∧
      (add_observation ⟨[], ⟨[10], [7], [5], [8], [9], false⟩, 2, 3, 7, 8, 9, []⟩
          1 2 3 true).current_batch = [] ∧
      (add_observation ⟨[], ⟨[10], [7], [5], [8], [9], false⟩, 2, 3, 7, 8, 9, []⟩
          1 2 3 true).batch_steps = 0 :=
  add_observation_terminal_at_batch_size
    ⟨[], ⟨[10], [7], [5], [8], [9], false⟩, 2, 3, 7, 8, 9, []⟩ 1 2 3 (by decide)

/-- C8: a terminal step whose step counter stays strictly below
`batch_size` finalizes the episode into a `terminated = true` path whose
per-field arrays all have leading length equal to the episode's step
count, appends it to the batch buffer, resets the episode buffer, calls
no update, and does not reset the step counter. -/
theorem add_observation_terminal_before_batch_size (st : AgentState)
    (s a r : Int) (k : Nat)
    (h : st.batch_steps + 1 < st.batch_size)
    (hs : st.current_episode.states.length = k)
    (ha : st.current_episode.actions.length = k)
    (hr : st.current_episode.rewards.length = k)
    (hm : st.current_episode.action_means.length = k)
    (hl : st.current_episode.action_log_stds.length = k) :
    ∃ p : Path,
      (add_observation st s a r true).current_batch = st.current_batch ++ [p] ∧
      p.terminated = true ∧
      p.states.length = k + 1 ∧ p.actions.length = k + 1 ∧
      p.rewards.length = k + 1 ∧ p.action_means.length = k + 1 ∧
      p.action_log_stds.length = k + 1 ∧
      (add_observation st s a r true).current_episode = emptyEpisode ∧
      (add_observation st s a r true).updates = st.updates ∧
      (add_observation st s a r true).batch_steps = st.batch_steps + 1 := by
  have hne : ¬ (st.batch_steps + 1 = st.batch_size) := by omega
  refine ⟨{ states := st.current_episode.states ++ [s]
            actions := st.current_episode.actions ++ [st.last_action]
            terminated := true
            action_means := st.current_episode.action_means ++ [st.last_action_means]
            action_log_stds :=
              st.current_episode.action_log_stds ++ [st.last_action_log_stds]
            rewards := st.current_episode.rewards ++ [r] },
    ?_, rfl, ?_, ?_, ?_, ?_, ?_, ?_, ?_, ?_⟩ <;>
  simp [add_observation, get_path, hne, hs, ha, hr, hm, hl]

/-- Witness for `add_observation_terminal_before_batch_size`: a fresh-batch
agent with `batch_size = 3` and a one-step-old episode buffer, fed a
terminal step on its second step. -/
theorem add_observation_terminal_before_batch_size_witness :
    ∃ p : Path,
      (add_observation ⟨[], ⟨[10], [7], [5], [8], [9], false⟩, 1, 3, 7, 8, 9, []⟩
          1 2 3 true).current_batch = [] ++ [p] ∧
      p.terminated = true ∧
      p.states.length = 1 + 1 ∧ p.actions.length = 1 + 1 ∧
      p.rewards.length = 1 + 1 ∧ p.action_means.length = 1 + 1 ∧
      p.action_log_stds.length = 1 + 1 ∧
      (add_observation ⟨[], ⟨[10], [7], [5], [8], [9], false⟩, 1, 3, 7, 8, 9, []⟩
          1 2 3 true).current_episode = emptyEpisode ∧
      (add_observation ⟨[], ⟨[10], [7], [5], [8], [9], false⟩, 1, 3, 7, 8, 9, []⟩
          1 2 3 true).updates = [] ∧
      (add_observation ⟨[], ⟨[10], [7], [5], [8], [9], false⟩, 1, 3, 7, 8, 9, []⟩
          1 2 3 true).batch_steps = 1 + 1 :=
  add_observation_terminal_before_batch_size
    ⟨[], ⟨[10], [7], [5], [8], [9], false⟩, 1, 3, 7, 8, 9, []⟩ 1 2 3 1
    (by decide) (by decide) (by decide) (by decide) (by decide) (by decide)

/-- An `add_observation` call never changes the configured batch size. -/
theorem batch_size_add_observation (st : AgentState) (s a r : Int) (t : Bool) :
    (add_observation st s a r t).batch_size = st.batch_size := by
  cases t <;> simp [add_observation] <;> split <;> rfl

/-- One `add_observation` step preserves `batch_steps < batch_size`. -/
theorem batch_steps_lt_add_observation (st : AgentState) (s a r : Int)
    (t : Bool) (h : st.batch_steps < st.batch_size) :
    (add_observation st s a r t).batch_steps < st.batch_size := by
  by_cases hc : st.batch_steps + 1 = st.batch_size
  · have h0 : (add_observation st s a r t).batch_steps = 0 := by
      cases t <;> simp [add_observation, hc]
    omega
  · have h1 : (add_observation st s a r t).batch_steps = st.batch_steps + 1 := by
      cases t <;> simp [add_observation, hc]
    omega

/-- Running any observation sequence preserves `batch_steps < batch_size`
and the batch size itself. -/
theorem run_observations_batch_steps_lt (obs : List Obs) :
    ∀ st : AgentState, st.batch_steps < st.batch_size →
      (run_observations st obs).batch_steps < st.batch_size ∧
        (run_observations st obs).batch_size = st.batch_size := by
  induction obs with
  | nil => intro st h; exact ⟨h, rfl⟩
  | cons o os ih =>
    intro st h
    have hsz := batch_size_add_observation st o.state o.action o.reward o.terminal
    have hlt := batch_steps_lt_add_observation st o.state o.action o.reward o.terminal h
    have := ih (add_observation st o.state o.action o.reward o.terminal)
      (by rw [hsz]; exact hlt)
    simpa [run_observations, hsz] using this

/-- C10: starting from a fresh agent with `batch_size = n ≥ 1`, the step
counter is strictly below `n` after every `add_observation` call returns
(applying this to each prefix of the call sequence gives the invariant
after every call). -/
theorem batch_steps_invariant (n : Nat) (hn : 1 ≤ n) (la lam lal : Int)
    (obs : List Obs) :
    (run_observations (freshAgent n la lam lal) obs).batch_steps < n := by
  have h := run_observations_batch_steps_lt obs (freshAgent n la lam lal)
    (by simpa [freshAgent] using hn)
  exact h.1

/-- Witness for `batch_steps_invariant`: `batch_size = 2` and a concrete
three-step sequence containing a terminal step. -/
theorem batch_steps_invariant_witness :
    (run_observations (freshAgent 2 0 0 0)
        [⟨1, 1, 1, false⟩, ⟨2, 2, 2, true⟩, ⟨3, 3, 3, false⟩]).batch_steps < 2 :=
  batch_steps_invariant 2 (by decide) 0 0 0
    [⟨1, 1, 1, false⟩, ⟨2, 2, 2, true⟩, ⟨3, 3, 3, false⟩]

/-- A run of non-terminal steps that stays strictly below the batch-size
threshold only appends to the episode buffer and advances the step
counter; the cached last action and parameters are copied once per step. -/
theorem run_nonterminal_accumulate (obs : List Obs) :
    ∀ st : AgentState, (∀ o ∈ obs, o.terminal = false) →
      st.batch_steps + obs.length < st.batch_size →
      run_observations st obs =
        { st with
          current_episode := { st.current_episode with
            states := st.current_episode.states ++ obs.map Obs.state
            actions := st.current_episode.actions ++
              List.replicate obs.length st.last_action
            rewards := st.current_episode.rewards ++ obs.map Obs.reward
            action_means := st.current_episode.action_means ++
              List.replicate obs.length st.last_action_means
            action_log_stds := st.current_episode.action_log_stds ++
              List.replicate obs.length st.last_action_log_stds }
          batch_steps := st.batch_steps + obs.length } := by
  induction obs with
  | nil => intro st _ _; simp [run_observations]
  | cons o os ih =>
    intro st hterm hlt
    have ho : o.terminal = false := hterm o (List.mem_cons_self _ _)
    have hne : ¬ (st.batch_steps + 1 = st.batch_size) := by
      simp [List.length_cons] at hlt; omega
    have h1 : add_observation st o.state o.action o.reward o.terminal =
        { st with
          current_episode := { st.current_episode with
            states := st.current_episode.states ++ [o.state]
            actions := st.current_episode.actions ++ [st.last_action]
            rewards := st.current_episode.rewards ++ [o.reward]
            action_means := st.current_episode.action_means ++ [st.last_action_means]
            action_log_stds := st.current_episode.action_log_stds ++
              [st.last_action_log_stds] }
          batch_steps := st.batch_steps + 1 } := by
      simp [add_observation, ho, hne]
    have h2 := ih ({ st with
          current_episode := { st.current_episode with
            states := st.current_episode.states ++ [o.state]
            actions := st.current_episode.actions ++ [st.last_action]
            rewards := st.current_episode.rewards ++ [o.reward]
            action_means := st.current_episode.action_means ++ [st.last_action_means]
            action_log_stds := st.current_episode.action_log_stds ++
              [st.last_action_log_stds] }
          batch_steps := st.batch_steps + 1 })
      (fun o' ho' => hterm o' (List.mem_cons_of_mem _ ho'))
      (by simp [List.length_cons] at hlt ⊢; omega)
    show run_observations (add_observation st o.state o.action o.reward o.terminal)
        os = _
    rw [h1, h2]
    simp [List.append_assoc, List.replicate_succ]
    omega

/-- A non-terminal step whose incremented counter hits `batch_size`
force-finalizes the episode with `terminated = false`, hands the batch to
the update routine, and resets both buffers and the counter. -/
theorem add_observation_nonterminal_flush (st : AgentState) (s a r : Int)
    (h : st.batch_steps + 1 = st.batch_size) :
    (add_observation st s a r false).updates =
        st.updates ++ [st.current_batch ++
          [{ states := st.current_episode.states ++ [s]
             actions := st.current_episode.actions ++ [st.last_action]
             terminated := false
             action_means := st.current_episode.action_means ++ [st.last_action_means]
             action_log_stds :=
               st.current_episode.action_log_stds ++ [st.last_action_log_stds]
             rewards := st.current_episode.rewards ++ [r] }]] ∧
      (add_observation st s a r false).current_episode = emptyEpisode ∧
      (add_observation st s a r false).current_batch = [] ∧
      (add_observation st s a r false).batch_steps = 0 := by
  refine ⟨?_, ?_, ?_, ?_⟩ <;> simp [add_observation, get_path, h]

/-- C2: from a fresh or just-flushed agent, exactly `batch_size`
non-terminal steps produce exactly one update call whose batch holds the
single force-finalized path with `terminated = false`, and afterwards the
episode buffer, batch buffer and step counter are all reset. -/
theorem batch_of_nonterminal_steps_flush (st : AgentState) (obs : List Obs)
    (hbatch : st.current_batch = [])
    (hep : st.current_episode = emptyEpisode)
    (hsteps : st.batch_steps = 0)
    (hlen : obs.length = st.batch_size)
    (hpos : 1 ≤ st.batch_size)
    (hterm : ∀ o ∈ obs, o.terminal = false) :
    (∃ p : Path, p.terminated = false ∧
        (run_observations st obs).updates = st.updates ++ [[p]]) ∧
      (run_observations st obs).current_batch = [] ∧
      (run_observations st obs).current_episode = emptyEpisode ∧
      (run_observations st obs).batch_steps = 0 := by
  rcases List.eq_nil_or_concat obs with hnil | ⟨os, o, hcat⟩
  · subst hnil; simp [hsteps] at hlen; omega
  · rw [List.concat_eq_append] at hcat
    subst hcat
    have hlen' : os.length + 1 = st.batch_size := by
      simpa using hlen
    have hmid := run_nonterminal_accumulate os st
      (fun o' ho' => hterm o' (List.mem_append_left _ ho'))
      (by omega)
    have ho : o.terminal = false :=
      hterm o (List.mem_append_right _ (List.mem_singleton_self _))
    have hrun : run_observations st (os ++ [o]) =
        add_observation (run_observations st os) o.state o.action o.reward
          o.terminal := by
      simp [run_observations, List.foldl_append]
    set mid := run_observations st os with hmiddef
    have hflush := add_observation_nonterminal_flush mid o.state o.action o.reward
      (by rw [hmid]; simp; omega)
    rw [hrun, ho]
    refine ⟨⟨{ states := mid.current_episode.states ++ [o.state]
               actions := mid.current_episode.actions ++ [mid.last_action]
               terminated := false
               action_means := mid.current_episode.action_means ++ [mid.last_action_means]
               action_log_stds :=
                 mid.current_episode.action_log_stds ++ [mid.last_action_log_stds]
               rewards := mid.current_episode.rewards ++ [o.reward] }, rfl, ?_⟩,
      hflush.2.2.1, hflush.2.1, hflush.2.2.2⟩
    rw [hflush.1]
    simp [hmid, hbatch]

/-- Witness for `batch_of_nonterminal_steps_flush`: a fresh agent with
`batch_size = 2` fed two non-terminal steps. -/
theorem batch_of_nonterminal_steps_flush_witness :
    (∃ p : Path, p.terminated = false ∧
        (run_observations (freshAgent 2 0 0 0)
            [⟨1, 1, 1, false⟩, ⟨2, 2, 2, false⟩]).updates = [] ++ [[p]]) ∧
      (run_observations (freshAgent 2 0 0 0)
          [⟨1, 1, 1, false⟩, ⟨2, 2, 2, false⟩]).current_batch = [] ∧
      (run_observations (freshAgent 2 0 0 0)
          [⟨1, 1, 1, false⟩, ⟨2, 2, 2, false⟩]).current_episode = emptyEpisode ∧
      (run_observations (freshAgent 2 0 0 0)
          [⟨1, 1, 1, false⟩, ⟨2, 2, 2, false⟩]).batch_steps = 0 :=
  batch_of_nonterminal_steps_flush (freshAgent 2 0 0 0)
    [⟨1, 1, 1, false⟩, ⟨2, 2, 2, false⟩] rfl rfl rfl rfl (by decide) (by decide)

end PGAgentModel

namespace GaussianModel

/-- The constant `util.epsilon`, the numerical floor used throughout
`gaussian.py`.  Modelled from the spec: `tensorforce/util.py` is not part
of the sources; the spec fixes "a small positive numerical floor, e.g.
1e-6". -/
noncomputable def epsilon : ℝ := 1 / 1000000

/-- The `TensorDict(mean=..., stddev=..., log_stddev=...)` parameter set
produced by `Gaussian.parametrize`, one scalar component per action
element. -/
structure GaussianParams where
  mean : ℝ
  stddev : ℝ
  log_stddev : ℝ

/-- The validity predicate the spec states for parameter sets:
`stddev = exp(log_stddev)` and `log_stddev ∈ [ln ε, −ln ε]`. -/
def validGaussianParams (p : GaussianParams) : Prop :=
  p.stddev = Real.exp p.log_stddev ∧
    Real.log epsilon ≤ p.log_stddev ∧ p.log_stddev ≤ -Real.log epsilon

/-- Embedding of `Gaussian.parametrize` (lines 95–118), componentwise.  The two linear
heads `self.mean.apply` and `self.log_stddev.apply` belong to the excluded
layer library, so they enter as opaque functions `meanApply` /
`logStddevApply` of the embedding component `x`; the reshape is shape
plumbing with no componentwise content.  `tf.clip_by_value(t, lo, hi)` is
`min (max t lo) hi`. -/
noncomputable def parametrize (meanApply logStddevApply : ℝ → ℝ) (x : ℝ) :
    GaussianParams :=
  let mean := meanApply x
  let log_stddev :=
    min (max (logStddevApply x) (Real.log epsilon)) (-(Real.log epsilon))
  { mean := mean, stddev := Real.exp log_stddev, log_stddev := log_stddev }

/-- Embedding of `Gaussian.sample` (lines 120–141), componentwise: the action is
`mean + stddev * temperature * noise` where `noise` is the standard-normal
draw, then clipped below by `min_value` and above by `max_value` when the
action spec declares them. -/
noncomputable def sample (min_value max_value : Option ℝ)
    (mean stddev temperature noise : ℝ) : ℝ :=
  let action := mean + stddev * temperature * noise
  let clipped_below :=
    match min_value with
    | some lo => max lo action
    | none => action
  let clipped :=
    match max_value with
    | some hi => min hi clipped_below
    | none => clipped_below
  clipped

/-- Embedding of `Gaussian.log_probability` (lines 143–156), componentwise. -/
noncomputable def log_probability (p : GaussianParams) (action : ℝ) : ℝ :=
  let sq_mean_distance := (action - p.mean) ^ 2
  let sq_stddev := max (p.stddev ^ 2) epsilon
  let result := -(1 / 2) * sq_mean_distance / sq_stddev - p.log_stddev -
    (1 / 2) * Real.log (2 * Real.pi)
  result

/-- Embedding of `Gaussian.kl_divergence` (lines 169–182), componentwise. -/
noncomputable def kl_divergence (p1 p2 : GaussianParams) : ℝ :=
  let log_stddev_diff := p2.log_stddev - p1.log_stddev
  let sq_mean_distance := (p1.mean - p2.mean) ^ 2
  let sq_stddev1 := p1.stddev ^ 2
  let sq_stddev2 := max (p2.stddev ^ 2) epsilon
  let result := log_stddev_diff +
    (1 / 2) * (sq_stddev1 + sq_mean_distance) / sq_stddev2 - 1 / 2
  result

/-- Embedding of `Gaussian.states_value` (lines 184–192), componentwise. -/
noncomputable def states_value (p : GaussianParams) : ℝ :=
  -p.log_stddev - (1 / 2) * Real.log (2 * Real.pi)

/-- Embedding of `Gaussian.action_value` (lines 194–207), componentwise. -/
noncomputable def action_value (p : GaussianParams) (action : ℝ) : ℝ :=
  let sq_mean_distance := (action - p.mean) ^ 2
  let sq_stddev := max (p.stddev ^ 2) epsilon
  let result := -(1 / 2) * sq_mean_distance / sq_stddev - 2 * p.log_stddev -
    Real.log (2 * Real.pi)
  result

/-- The validation error raised by `TensorforceError.value(...)` in
`Gaussian.__init__`: argument name, offending shape value, and
human-readable hint. -/
structure TensorforceValueError where
  argument : String
  value : List Nat
  hint : String
deriving DecidableEq, Repr

/-- Modelled from the spec: `util.product(xs, empty=0)`; `tensorforce/util.py`
is not part of the sources; per its call site it is the product of the
shape tuple, with `0` for the empty tuple. -/
def util_product (xs : List Nat) : Nat :=
  if xs = [] then 0 else xs.prod

/-- The shape-validation logic of `Gaussian.__init__` (lines 50–77) as a
function of the embedding shape `inputShape` and the action shape
`actionShape`, returning the linear-head `size` it selects or the
`TensorforceError.value` it raises.  The invalid-rank branch reports
`self.embedding_shape`, an attribute of the excluded `Distribution` base
class that holds the input spec's shape, so both error branches report
`inputShape`. -/
def gaussianInitCheck (inputShape actionShape : List Nat) :
    Except TensorforceValueError Nat :=
  if inputShape.length = 1 then
    Except.ok (util_product actionShape)
  else if inputShape.length < 1 ∨ inputShape.length > 3 then
    Except.error ⟨"input_spec.shape", inputShape, "invalid rank"⟩
  else if inputShape.dropLast = actionShape.dropLast then
    Except.ok (actionShape.getLastD 0)
  else if inputShape.dropLast = actionShape then
    Except.ok 0
  else
    Except.error
      ⟨"input_spec.shape", inputShape,
        "not flattened and incompatible with action shape"⟩

end GaussianModel

namespace GaussianModel

/-- The logarithm of the numerical floor is negative. -/
theorem log_epsilon_neg : Real.log epsilon < 0 :=
  Real.log_neg (by norm_num [epsilon]) (by norm_num [epsilon])

/-- C3: for every embedding input `x` (and any pair of linear heads), the
parameters returned by `parametrize` satisfy `stddev = exp (log_stddev)`
and `ln ε ≤ log_stddev ≤ −ln ε`; the clamp is applied before `stddev` is
computed on every call. -/
theorem parametrize_valid (meanApply logStddevApply : ℝ → ℝ) (x : ℝ) :
    validGaussianParams (parametrize meanApply logStddevApply x) := by
  have hL : Real.log epsilon < 0 := log_epsilon_neg
  simp only [validGaussianParams, parametrize]
  refine ⟨trivial, ?_, ?_⟩
  · exact le_min (le_max_right _ _) (by linarith)
  · exact min_le_right _ _

/-- C9: `action_value` is exactly `log_probability + states_value`,
elementwise, for every parameter set and action. -/
theorem action_value_eq_log_probability_add_states_value
    (p : GaussianParams) (a : ℝ) :
    action_value p a = log_probability p a + states_value p := by
  simp only [action_value, log_probability, states_value]
  ring

/-- C7: `sample` with `temperature = 0` is independent of the noise draw
and returns exactly the mean after the declared bounds clipping. -/
theorem sample_temperature_zero (min_value max_value : Option ℝ)
    (mean stddev noise noise' : ℝ) :
    sample min_value max_value mean stddev 0 noise
        = sample min_value max_value mean stddev 0 noise' ∧
      sample none none mean stddev 0 noise = mean ∧
      ∀ lo hi : ℝ, sample (some lo) (some hi) mean stddev 0 noise
        = min hi (max lo mean) := by
  cases min_value <;> cases max_value <;> simp [sample]

/-- C6: when the action spec declares bounds `lo ≤ hi`, the sampled action
lies in `[lo, hi]`, and it is exactly the post-noise value
`mean + stddev·temperature·noise` clipped to the bounds (clip after noise,
not before). -/
theorem sample_within_bounds (lo hi mean stddev temperature noise : ℝ)
    (h : lo ≤ hi) :
    lo ≤ sample (some lo) (some hi) mean stddev temperature noise ∧
      sample (some lo) (some hi) mean stddev temperature noise ≤ hi ∧
      sample (some lo) (some hi) mean stddev temperature noise
        = min hi (max lo (mean + stddev * temperature * noise)) := by
  simp only [sample]
  refine ⟨le_min h (le_max_left _ _), min_le_left _ _, trivial⟩

/-- Witness for `sample_within_bounds` at `lo = 0`, `hi = 1`, `mean = 5`,
`stddev = 1`, `temperature = 1`, `noise = 10`. -/
theorem sample_within_bounds_witness :
    (0:ℝ) ≤ 1 ∧
      (0:ℝ) ≤ sample (some 0) (some 1) 5 1 1 10 ∧
      sample (some (0:ℝ)) (some 1) 5 1 1 10 ≤ 1 :=
  ⟨by norm_num, (sample_within_bounds 0 1 5 1 1 10 (by norm_num)).1,
    (sample_within_bounds 0 1 5 1 1 10 (by norm_num)).2.1⟩

/-- C5: embedding shapes of invalid rank (outside 1–3), and rank-2/3
embedding shapes incompatible with the action shape, make
`Gaussian.__init__` raise the validation error with argument name
`input_spec.shape`, the offending shape, and the documented hint; and
every error the shape check can raise is one of these two. -/
theorem gaussian_init_shape_validation (ishape ashape : List Nat) :
    ((ishape.length < 1 ∨ ishape.length > 3) →
      gaussianInitCheck ishape ashape =
        Except.error ⟨"input_spec.shape", ishape, "invalid rank"⟩) ∧
    (1 < ishape.length → ishape.length ≤ 3 →
      ishape.dropLast ≠ ashape.dropLast → ishape.dropLast ≠ ashape →
      gaussianInitCheck ishape ashape =
        Except.error ⟨"input_spec.shape", ishape,
          "not flattened and incompatible with action shape"⟩) ∧
    (∀ e, gaussianInitCheck ishape ashape = Except.error e →
      e.argument = "input_spec.shape" ∧ e.value = ishape ∧
        (e.hint = "invalid rank" ∨
          e.hint = "not flattened and incompatible with action shape")) := by
  refine ⟨?_, ?_, ?_⟩
  · intro h
    have h1 : ¬ ishape.length = 1 := by omega
    rw [gaussianInitCheck, if_neg h1, if_pos h]
  · intro h2 h3 hne1 hne2
    have h1 : ¬ ishape.length = 1 := by omega
    have hr : ¬ (ishape.length < 1 ∨ ishape.length > 3) := by omega
    rw [gaussianInitCheck, if_neg h1, if_neg hr, if_neg hne1, if_neg hne2]
  · intro e he
    rw [gaussianInitCheck] at he
    split_ifs at he <;> simp_all
    · cases he; exact ⟨rfl, rfl, Or.inl rfl⟩
    · cases he; exact ⟨rfl, rfl, Or.inr rfl⟩

/-- Witness for `gaussian_init_shape_validation`: the spec's example
`input_spec.shape = (4,5)` against `action_spec.shape = (3,)` raises the
incompatible-shape error, and a rank-4 embedding raises the invalid-rank
error. -/
theorem gaussian_init_shape_validation_witness :
    gaussianInitCheck [4, 5] [3] =
        Except.error ⟨"input_spec.shape", [4, 5],
          "not flattened and incompatible with action shape"⟩ ∧
      gaussianInitCheck [2, 2, 2, 2] [3] =
        Except.error ⟨"input_spec.shape", [2, 2, 2, 2], "invalid rank"⟩ :=
  ⟨(gaussian_init_shape_validation [4, 5] [3]).2.1 (by decide) (by decide)
      (by decide) (by decide),
    (gaussian_init_shape_validation [2, 2, 2, 2] [3]).1 (by decide)⟩

/-- C4 counterexample: the parameter set with `log_stddev = ln ε` and
`stddev = ε` is valid in the spec's sense, yet `kl_divergence(P, P)` is
about `−1/2` (the `max(stddev², ε)` floor fires because `ε² < ε`), far
from 0 and negative. -/
theorem kl_divergence_self_counterexample :
    validGaussianParams ⟨0, epsilon, Real.log epsilon⟩ ∧
      kl_divergence ⟨0, epsilon, Real.log epsilon⟩
          ⟨0, epsilon, Real.log epsilon⟩ < -(1 / 4) := by
  constructor
  · refine ⟨(Real.exp_log (by norm_num [epsilon])).symm, le_refl _, ?_⟩
    have h := log_epsilon_neg
    linarith
  · have hmax : max (epsilon ^ 2) epsilon = epsilon :=
      max_eq_right (by norm_num [epsilon])
    simp only [kl_divergence, hmax, sub_self]
    norm_num [epsilon]

/-- C4 (amended): for every valid parameter set whose variance `stddev²`
is at least the floor `ε`, `kl_divergence(P, P)` is exactly 0. -/
theorem kl_divergence_self_eq_zero (p : GaussianParams)
    (hv : validGaussianParams p) (hs : epsilon ≤ p.stddev ^ 2) :
    kl_divergence p p = 0 := by
  have hpos : 0 < p.stddev := by
    rw [hv.1]; exact Real.exp_pos _
  have hne : p.stddev ^ 2 ≠ 0 := by positivity
  have hmax : max (p.stddev ^ 2) epsilon = p.stddev ^ 2 := max_eq_left hs
  simp only [kl_divergence, hmax, sub_self]
  field_simp
  ring

/-- Witness for `kl_divergence_self_eq_zero` at the valid parameter set
`(mean, stddev, log_stddev) = (2, 1, 0)`. -/
theorem kl_divergence_self_eq_zero_witness :
    validGaussianParams ⟨2, 1, 0⟩ ∧
      kl_divergence ⟨2, 1, 0⟩ ⟨2, 1, 0⟩ = 0 := by
  have hv : validGaussianParams ⟨2, 1, 0⟩ := by
    refine ⟨by simp [Real.exp_zero], le_of_lt log_epsilon_neg, ?_⟩
    have h := log_epsilon_neg
    simp only
    linarith
  exact ⟨hv, kl_divergence_self_eq_zero ⟨2, 1, 0⟩ hv (by norm_num [epsilon])⟩

end GaussianModel
